import Mathlib

/-!
Shallow embedding of the order execution engine
(`src/backend/src/services/tradingEngine/OrderExecutionService.ts` and the
trading types) of the PLEBLAUNCH repository, together with theorems settling
the specification claims about it.

Modelling conventions:
* JavaScript numbers are modelled by `ℚ` where the code only performs exact
  arithmetic; the points where `NaN` / `Infinity` can arise (the slippage
  computation, which divides by a possibly-zero or possibly-`undefined`
  reference price) are modelled by the `JSNum` type with IEEE-style
  division, subtraction, absolute value and comparison.
* The Postgres store is modelled by a `DB` value: the `orders` table as a
  list of rows and the `trades` table as a list of rows.  `UPDATE ... WHERE`
  maps over the rows, `INSERT` appends, `rowCount` counts matched rows.
* The external collaborators (RiskManager, JupiterService quote/price/swap,
  PortfolioManager) are modelled by an `Env` record giving, for one
  invocation, each collaborator call's outcome: a returned value (`Res.ok`)
  or a thrown exception carrying its message (`Res.exn`).
* The reason strings written to `failure_reason` are modelled by the tagged
  type `Reason`; the formatted slippage message carries the two values it
  interpolates (the computed slippage and the tolerance; the `× 100` /
  `toFixed(2)` rendering is presentation only).
* Each execution function also returns the ordered trace of collaborator
  calls it performed (`ExtCall`), so that frame claims ("no quote was
  requested", "the portfolio was not mutated") are statable.
-/

namespace PlebLaunch

/-- `OrderStatus` from `backend/types/trading.ts`. -/
inductive OrderStatus where
  | pending
  | filled
  | partlyFilled
  | cancelled
  | rejected
  | failed
  | expired
  deriving DecidableEq, Repr

/-- `OrderType` from `backend/types/trading.ts`. -/
inductive OrderType where
  | market
  | limit
  | stopLoss
  | takeProfit
  | trailingStop
  deriving DecidableEq, Repr

/-- `OrderSide` from `backend/types/trading.ts`. -/
inductive OrderSide where
  | buy
  | sell
  deriving DecidableEq, Repr

/-- `TradeStatus` from `backend/types/trading.ts`. -/
inductive TradeStatus where
  | pending
  | completed
  | failed
  | cancelled
  deriving DecidableEq, Repr

/-- JavaScript number results of the slippage computation: finite rationals
plus `NaN` and the two infinities, which arise from division by zero and
from arithmetic on `undefined`. -/
inductive JSNum where
  | nan
  | posInf
  | negInf
  | fin (q : ℚ)
  deriving DecidableEq, Repr

/-- Contents of a `failure_reason` string. -/
inductive Reason where
  | msg (s : String)
  | slippageExceeds (slippage : JSNum) (tolerance : ℚ)
  deriving DecidableEq, Repr

/-- A row of the `orders` table / the `Order` interface (the fields the
engine reads or writes; wallet and timestamp metadata other than
`created_at` are omitted as the modelled logic never inspects them). -/
structure Order where
  id : String
  userId : String
  type : OrderType
  side : OrderSide
  status : OrderStatus
  inputMint : String
  outputMint : String
  amount : ℚ
  limitPrice : Option ℚ
  stopPrice : Option ℚ
  takeProfitPrice : Option ℚ
  marketPrice : Option ℚ
  slippageTolerance : ℚ
  failureReason : Option Reason
  createdAt : Nat
  deriving DecidableEq, Repr

/-- A Jupiter quote as consumed by the engine: `parseFloat(quote.inAmount)`
and `parseFloat(quote.outAmount)`. -/
structure Quote where
  inAmount : ℚ
  outAmount : ℚ
  deriving DecidableEq, Repr

/-- Result of `jupiterService.executeSwap`. -/
structure SwapResult where
  success : Bool
  error : Option String
  signature : String
  fees : Option ℚ
  slippage : Option ℚ
  deriving DecidableEq, Repr

/-- Result of `riskManager.validateOrder`. -/
structure RiskCheck where
  isValid : Bool
  reason : Option String
  deriving DecidableEq, Repr

/-- A row of the `trades` table / the `Trade` interface. -/
structure Trade where
  id : String
  orderId : String
  userId : String
  inputMint : String
  outputMint : String
  inputAmount : ℚ
  outputAmount : ℚ
  price : JSNum
  side : OrderSide
  signature : String
  status : TradeStatus
  fees : ℚ
  slippage : ℚ
  deriving DecidableEq, Repr

/-- Outcome of one call to an external collaborator: a returned value or a
thrown exception with its message. -/
inductive Res (α : Type) where
  | ok (a : α)
  | exn (msg : String)
  deriving DecidableEq, Repr

/-- The collaborator outcomes available to one invocation of the engine:
`riskManager.validateOrder`, `jupiterService.getQuote` (which resolves to a
quote or `null`), `jupiterService.getTokenPrice` (a price or `null`),
`jupiterService.executeSwap`, `portfolioManager.updatePortfolioAfterTrade`,
and the fresh identifier produced by `generateTradeId`. -/
structure Env where
  riskCheck : Res RiskCheck
  quote : Res (Option Quote)
  currentPrice : Res (Option ℚ)
  swap : Res SwapResult
  portfolioUpdate : Res Unit
  tradeId : String

/-- The durable store: the `orders` and `trades` tables. -/
structure DB where
  orders : List Order
  trades : List Trade
  deriving DecidableEq, Repr

/-- Trace entry: one call to an external collaborator. -/
inductive ExtCall where
  | risk
  | quote
  | price
  | swap
  | portfolio
  deriving DecidableEq, Repr

/-- Result of an execution attempt whose exceptions have been handled:
the store afterwards, the returned trade (or `null`), and the trace of
collaborator calls made. -/
structure ExecResult where
  db : DB
  trade : Option Trade
  calls : List ExtCall
  deriving DecidableEq, Repr

/-- Result of the `try` block of an execution attempt: either a normal
result or a thrown exception (with the store and call trace at the point of
the throw). -/
inductive TryResult where
  | done (r : ExecResult)
  | thrown (db : DB) (calls : List ExtCall) (msg : String)
  deriving DecidableEq, Repr

/-- JavaScript `a || b` on `number | undefined` operands: the first operand
if it is truthy (a number other than `0`), otherwise the second operand
as-is. -/
def jsOr (a b : Option ℚ) : Option ℚ :=
  match a with
  | some x => if x = 0 then b else some x
  | none => b

/-- JavaScript `a || 0` on a `number | undefined` operand. -/
def jsOrZero (a : Option ℚ) : ℚ :=
  match a with
  | some x => if x = 0 then 0 else x
  | none => 0

/-- IEEE division of two finite numbers: `a / b`, with signed infinities and
`NaN` when `b = 0`. -/
def jsDivQQ (a b : ℚ) : JSNum :=
  if b = 0 then
    if 0 < a then .posInf else if a < 0 then .negInf else .nan
  else .fin (a / b)

/-- IEEE subtraction of a possibly-`undefined` finite number from a `JSNum`:
subtracting `undefined` yields `NaN`. -/
def jsSubOpt (x : JSNum) (e : Option ℚ) : JSNum :=
  match e with
  | none => .nan
  | some e =>
    match x with
    | .nan => .nan
    | .posInf => .posInf
    | .negInf => .negInf
    | .fin q => .fin (q - e)

/-- IEEE absolute value (`Math.abs`). -/
def jsAbs : JSNum → JSNum
  | .nan => .nan
  | .posInf => .posInf
  | .negInf => .posInf
  | .fin q => .fin (if q < 0 then -q else q)

/-- IEEE division of a `JSNum` by a possibly-`undefined` finite number:
dividing by `undefined` yields `NaN`; dividing a nonzero finite number or an
infinity by `0` yields a signed infinity; `0 / 0` yields `NaN`. -/
def jsDivOpt (x : JSNum) (e : Option ℚ) : JSNum :=
  match e with
  | none => .nan
  | some e =>
    match x with
    | .nan => .nan
    | .posInf => if e < 0 then .negInf else .posInf
    | .negInf => if e < 0 then .posInf else .negInf
    | .fin q =>
      if e = 0 then
        if 0 < q then .posInf else if q < 0 then .negInf else .nan
      else .fin (q / e)

/-- IEEE `x > t` against a finite tolerance: `NaN` compares `false`. -/
def jsGtQ (x : JSNum) (t : ℚ) : Bool :=
  match x with
  | .nan => false
  | .posInf => true
  | .negInf => false
  | .fin q => decide (t < q)

/-- Result of `checkSlippage`. -/
structure SlippageResult where
  isValid : Bool
  reason : Option Reason
  deriving DecidableEq, Repr

/-- `checkSlippage` (OrderExecutionService.ts lines 230-244):
`expectedPrice = order.limitPrice || order.marketPrice`;
`quotedPrice = outAmount / inAmount`;
`slippage = |quotedPrice - expectedPrice| / expectedPrice`;
invalid with the formatted message iff `slippage > order.slippageTolerance`. -/
def checkSlippage (order : Order) (quote : Quote) : SlippageResult :=
  let expectedPrice := jsOr order.limitPrice order.marketPrice
  let quotedPrice := jsDivQQ quote.outAmount quote.inAmount
  let slippage := jsDivOpt (jsAbs (jsSubOpt quotedPrice expectedPrice)) expectedPrice
  if jsGtQ slippage order.slippageTolerance then
    { isValid := false
      reason := some (.slippageExceeds slippage order.slippageTolerance) }
  else
    { isValid := true, reason := none }

/-- JavaScript `p <= l` where `l : number | undefined`: comparison with
`undefined` is `false`. -/
def qleOpt (p : ℚ) (l : Option ℚ) : Bool :=
  match l with
  | some v => decide (p ≤ v)
  | none => false

/-- JavaScript `p >= l` where `l : number | undefined`: comparison with
`undefined` is `false`. -/
def qgeOpt (p : ℚ) (l : Option ℚ) : Bool :=
  match l with
  | some v => decide (v ≤ p)
  | none => false

/-- `shouldExecuteLimitOrder` (lines 246-252). -/
def shouldExecuteLimitOrder (order : Order) (currentPrice : ℚ) : Bool :=
  if order.side == .buy then qleOpt currentPrice order.limitPrice
  else qgeOpt currentPrice order.limitPrice

/-- `shouldExecuteStopLoss` (lines 254-259). -/
def shouldExecuteStopLoss (order : Order) (currentPrice : ℚ) : Bool :=
  if order.side == .sell then qleOpt currentPrice order.stopPrice
  else false

/-- `UPDATE orders SET status = $1, failure_reason = $2, updated_at = NOW()
WHERE id = $3` (`updateOrderStatus`, lines 311-316): unconditional update of
every row matching the id; when the code passes no reason, `failure_reason`
is set to NULL (`none`). -/
def updateOrderStatus (db : DB) (orderId : String) (st : OrderStatus)
    (reason : Option Reason) : DB :=
  { db with
    orders := db.orders.map fun o =>
      if o.id == orderId then { o with status := st, failureReason := reason }
      else o }

/-- `INSERT INTO trades ...` (inside `createTrade`, lines 296-306). -/
def insertTrade (db : DB) (t : Trade) : DB :=
  { db with trades := db.trades ++ [t] }

/-- The `Trade` record built by `createTrade` (lines 277-293). -/
def createTradeRecord (tradeId : String) (order : Order)
    (swapResult : SwapResult) (quote : Quote) : Trade :=
  { id := tradeId
    orderId := order.id
    userId := order.userId
    inputMint := order.inputMint
    outputMint := order.outputMint
    inputAmount := quote.inAmount
    outputAmount := quote.outAmount
    price := jsDivQQ quote.outAmount quote.inAmount
    side := order.side
    signature := swapResult.signature
    status := .completed
    fees := jsOrZero swapResult.fees
    slippage := jsOrZero swapResult.slippage }

/-- The `try` block of `executeMarketOrder` (lines 36-87): risk gate, quote,
slippage gate, swap, trade record, portfolio update, status update, in that
order, with the early `return null` branches; a collaborator throw surfaces
as `TryResult.thrown` with the store and trace at that point. -/
def executeMarketOrderTry (env : Env) (db : DB) (order : Order) : TryResult :=
  match env.riskCheck with
  | .exn m => .thrown db [.risk] m
  | .ok riskCheck =>
    if !riskCheck.isValid then
      .done { db := updateOrderStatus db order.id .rejected (riskCheck.reason.map .msg)
              trade := none, calls := [.risk] }
    else
      match env.quote with
      | .exn m => .thrown db [.risk, .quote] m
      | .ok none =>
        .done { db := updateOrderStatus db order.id .failed (some (.msg "Unable to get quote"))
                trade := none, calls := [.risk, .quote] }
      | .ok (some quote) =>
        let slippageCheck := checkSlippage order quote
        if !slippageCheck.isValid then
          .done { db := updateOrderStatus db order.id .rejected slippageCheck.reason
                  trade := none, calls := [.risk, .quote] }
        else
          match env.swap with
          | .exn m => .thrown db [.risk, .quote, .swap] m
          | .ok swapResult =>
            if !swapResult.success then
              .done { db := updateOrderStatus db order.id .failed (swapResult.error.map .msg)
                      trade := none, calls := [.risk, .quote, .swap] }
            else
              let trade := createTradeRecord env.tradeId order swapResult quote
              let db1 := insertTrade db trade
              match env.portfolioUpdate with
              | .exn m => .thrown db1 [.risk, .quote, .swap, .portfolio] m
              | .ok _ =>
                let db2 := updateOrderStatus db1 order.id .filled none
                .done { db := db2, trade := some trade
                        calls := [.risk, .quote, .swap, .portfolio] }

/-- `executeMarketOrder` (lines 36-93): the `try` block above with the
top-level `catch`, which records the order as FAILED with the exception
message and returns `null`. -/
def executeMarketOrder (env : Env) (db : DB) (order : Order) : ExecResult :=
  match executeMarketOrderTry env db order with
  | .done r => r
  | .thrown db1 calls m =>
    { db := updateOrderStatus db1 order.id .failed (some (.msg m))
      trade := none, calls := calls }

/-- `executeLimitOrder` (lines 98-124): fetch the current price (a throw is
caught and yields `null`); the guard `if (!currentPrice)` treats both a
`null` price and a price of `0` as unavailable (JavaScript falsy) — a
no-op; otherwise delegate to `executeMarketOrder` exactly when
`shouldExecuteLimitOrder` holds. -/
def executeLimitOrder (env : Env) (db : DB) (order : Order) : ExecResult :=
  match env.currentPrice with
  | .exn _ => { db := db, trade := none, calls := [.price] }
  | .ok none => { db := db, trade := none, calls := [.price] }
  | .ok (some currentPrice) =>
    if currentPrice = 0 then { db := db, trade := none, calls := [.price] }
    else if shouldExecuteLimitOrder order currentPrice then
      let r := executeMarketOrder env db order
      { r with calls := .price :: r.calls }
    else { db := db, trade := none, calls := [.price] }

/-- `executeStopLossOrder` (lines 129-153): same shape as the limit
executor — including the falsy `if (!currentPrice)` guard, so a price of
`0` is a no-op — triggered by `shouldExecuteStopLoss`. -/
def executeStopLossOrder (env : Env) (db : DB) (order : Order) : ExecResult :=
  match env.currentPrice with
  | .exn _ => { db := db, trade := none, calls := [.price] }
  | .ok none => { db := db, trade := none, calls := [.price] }
  | .ok (some currentPrice) =>
    if currentPrice = 0 then { db := db, trade := none, calls := [.price] }
    else if shouldExecuteStopLoss order currentPrice then
      let r := executeMarketOrder env db order
      { r with calls := .price :: r.calls }
    else { db := db, trade := none, calls := [.price] }

/-- `executeTakeProfitOrder` (lines 261-275), with the same falsy
`if (!currentPrice)` guard (line 267): a `null` or `0` price returns
`null`.  Unlike the limit and stop-loss executors this method has no
`try`/`catch`, so a throw from the price fetch propagates to the caller:
the result is a `TryResult`. -/
def executeTakeProfitOrderTry (env : Env) (db : DB) (order : Order) : TryResult :=
  match env.currentPrice with
  | .exn m => .thrown db [.price] m
  | .ok none => .done { db := db, trade := none, calls := [.price] }
  | .ok (some currentPrice) =>
    if currentPrice = 0 then .done { db := db, trade := none, calls := [.price] }
    else if order.side == .sell && qgeOpt currentPrice order.takeProfitPrice then
      let r := executeMarketOrder env db order
      .done { r with calls := .price :: r.calls }
    else .done { db := db, trade := none, calls := [.price] }

/-- The row predicate of `cancelOrder`'s conditional `UPDATE ... WHERE
id = $2 AND user_id = $3 AND status = $4` with `$4 = PENDING`. -/
def cancelMatches (orderId userId : String) (o : Order) : Bool :=
  o.id == orderId && o.userId == userId && o.status == .pending

/-- `cancelOrder` (lines 183-195): a single conditional update setting
`status = CANCELLED` on the rows matching id, owner and current status
PENDING; returns `rowCount > 0`. -/
def cancelOrder (db : DB) (orderId userId : String) : DB × Bool :=
  let rowCount := (db.orders.filter (cancelMatches orderId userId)).length
  ({ db with
      orders := db.orders.map fun o =>
        if cancelMatches orderId userId o then { o with status := .cancelled }
        else o },
   decide (0 < rowCount))

/-- Insertion into a list sorted by ascending `created_at`. -/
def insertByCreatedAt (o : Order) : List Order → List Order
  | [] => [o]
  | x :: xs =>
    if o.createdAt < x.createdAt then o :: x :: xs
    else x :: insertByCreatedAt o xs

/-- Sort by ascending `created_at` (the `ORDER BY created_at ASC`). -/
def sortByCreatedAt : List Order → List Order
  | [] => []
  | x :: xs => insertByCreatedAt x (sortByCreatedAt xs)

/-- `getPendingOrders` (lines 222-228): `SELECT * FROM orders WHERE
status = PENDING ORDER BY created_at ASC`. -/
def getPendingOrders (db : DB) : List Order :=
  sortByCreatedAt (db.orders.filter fun o => o.status == .pending)

/-- The `for` loop of `processPendingOrders` (lines 162-174), dispatching on
order type.  Orders of type MARKET or TRAILING_STOP have no `switch` case
and are skipped.  A throw escaping `executeTakeProfitOrder` reaches the
single outer `catch` of `processPendingOrders`, which logs and returns:
the remaining orders of the batch are not dispatched.  The second component
lists the ids dispatched to an executor. -/
def runPendingLoop (envOf : String → Env) : DB → List Order → DB × List String
  | db, [] => (db, [])
  | db, o :: rest =>
    match o.type with
    | .limit =>
      let r := executeLimitOrder (envOf o.id) db o
      let p := runPendingLoop envOf r.db rest
      (p.1, o.id :: p.2)
    | .stopLoss =>
      let r := executeStopLossOrder (envOf o.id) db o
      let p := runPendingLoop envOf r.db rest
      (p.1, o.id :: p.2)
    | .takeProfit =>
      match executeTakeProfitOrderTry (envOf o.id) db o with
      | .done r =>
        let p := runPendingLoop envOf r.db rest
        (p.1, o.id :: p.2)
      | .thrown db1 _ _ => (db1, [o.id])
    | .market => runPendingLoop envOf db rest
    | .trailingStop => runPendingLoop envOf db rest

/-- `processPendingOrders` (lines 158-178): fetch the pending orders and run
the dispatch loop under the single outer `catch`. -/
def processPendingOrders (envOf : String → Env) (db : DB) : DB × List String :=
  runPendingLoop envOf db (getPendingOrders db)

/-- Terminal statuses of the order state machine. -/
def isTerminal : OrderStatus → Bool
  | .filled => true
  | .cancelled => true
  | .rejected => true
  | .failed => true
  | .expired => true
  | .pending => false
  | .partlyFilled => false

/-! ### Concrete fixtures used by closed witnesses and counterexamples -/

/-- A pending market order with no reference price. -/
def sampleOrder : Order :=
  { id := "o1", userId := "u1", type := .market, side := .buy, status := .pending
    inputMint := "So11111111111111111111111111111111111111112", outputMint := "BONK"
    amount := 10
    limitPrice := none, stopPrice := none, takeProfitPrice := none, marketPrice := none
    slippageTolerance := 1/100, failureReason := none, createdAt := 0 }

/-- A store holding just `sampleOrder`. -/
def sampleDb : DB := { orders := [sampleOrder], trades := [] }

/-- Collaborators where the risk gate reports an invalid order. -/
def riskRejectEnv : Env :=
  { riskCheck := .ok { isValid := false, reason := some "Output asset is blacklisted" }
    quote := .ok none
    currentPrice := .ok none
    swap := .ok { success := false, error := none, signature := "", fees := none, slippage := none }
    portfolioUpdate := .ok ()
    tradeId := "t0" }

/-- Collaborators where everything succeeds up to the portfolio update,
which throws. -/
def portfolioThrowEnv : Env :=
  { riskCheck := .ok { isValid := true, reason := none }
    quote := .ok (some { inAmount := 1, outAmount := 1 })
    currentPrice := .ok none
    swap := .ok { success := true, error := none, signature := "sig", fees := none, slippage := none }
    portfolioUpdate := .exn "portfolio store unreachable"
    tradeId := "t1" }

/-- Collaborators where the price fetch throws. -/
def priceThrowEnv : Env :=
  { riskCheck := .ok { isValid := true, reason := none }
    quote := .ok none
    currentPrice := .exn "getTokenPrice timeout"
    swap := .ok { success := false, error := none, signature := "", fees := none, slippage := none }
    portfolioUpdate := .ok ()
    tradeId := "t2" }

/-- Collaborators where everything succeeds. -/
def allOkEnv : Env :=
  { riskCheck := .ok { isValid := true, reason := none }
    quote := .ok (some { inAmount := 1, outAmount := 1 })
    currentPrice := .ok (some 1)
    swap := .ok { success := true, error := none, signature := "sig", fees := none, slippage := none }
    portfolioUpdate := .ok ()
    tradeId := "t3" }

/-- Collaborators where everything succeeds but the fetched current price
is exactly `0` (falsy in JavaScript). -/
def zeroPriceEnv : Env := { allOkEnv with currentPrice := .ok (some 0) }

/-- An order whose recorded market price is (present and) zero. -/
def zeroRefOrder : Order := { sampleOrder with marketPrice := some 0, slippageTolerance := 1 }

/-- An order with reference price `1` and tolerance `1/10`. -/
def boundaryOrder : Order :=
  { sampleOrder with marketPrice := some 1, slippageTolerance := 1/10 }

/-- A pending SELL take-profit order, oldest in the batch. -/
def tpOrder : Order :=
  { sampleOrder with
    id := "tp1", type := .takeProfit, side := .sell
    takeProfitPrice := some 5, createdAt := 0 }

/-- A pending BUY limit order, created after `tpOrder`. -/
def limOrder : Order :=
  { sampleOrder with id := "lim1", type := .limit, limitPrice := some 10, createdAt := 1 }

/-- A store holding the two pending conditional orders. -/
def batchDb : DB := { orders := [limOrder, tpOrder], trades := [] }

/-- A pending SELL stop-loss order. -/
def slOrder : Order :=
  { sampleOrder with id := "sl1", type := .stopLoss, side := .sell, stopPrice := some 4 }

/-- Collaborators passing the risk gate and quoting price `6/5` (for an
order with reference price `1` and tolerance `1/10`, this exceeds the
tolerance by `1/10`). -/
def slipEnv : Env :=
  { riskCheck := .ok { isValid := true, reason := none }
    quote := .ok (some { inAmount := 1, outAmount := 6/5 })
    currentPrice := .ok none
    swap := .ok { success := true, error := none, signature := "sig", fees := none, slippage := none }
    portfolioUpdate := .ok ()
    tradeId := "t4" }

/-! ### Helper lemmas about the store primitives -/

theorem updateOrderStatus_orders (db : DB) (orderId : String) (st : OrderStatus)
    (r : Option Reason) :
    (updateOrderStatus db orderId st r).orders =
      db.orders.map fun o =>
        if o.id = orderId then { o with status := st, failureReason := r } else o := by
  refine List.map_congr_left fun o _ => ?_
  by_cases h : o.id = orderId
  · rw [if_pos (by simpa using h), if_pos h]
  · rw [if_neg (by simpa using h), if_neg h]

theorem updateOrderStatus_trades (db : DB) (orderId : String) (st : OrderStatus)
    (r : Option Reason) :
    (updateOrderStatus db orderId st r).trades = db.trades := rfl

theorem insertTrade_orders (db : DB) (t : Trade) :
    (insertTrade db t).orders = db.orders := rfl

theorem cancelMatches_iff (orderId userId : String) (o : Order) :
    cancelMatches orderId userId o = true ↔
      o.id = orderId ∧ o.userId = userId ∧ o.status = OrderStatus.pending := by
  simp [cancelMatches, and_assoc]

theorem filter_length_pos_iff {α : Type} (p : α → Bool) (l : List α) :
    0 < (l.filter p).length ↔ ∃ a ∈ l, p a = true := by
  induction l with
  | nil => simp
  | cons x xs ih =>
    by_cases h : p x = true <;> simp [List.filter_cons, h, ih]

theorem cancelOrder_orders_map (db : DB) (orderId userId : String) :
    (cancelOrder db orderId userId).1.orders =
      db.orders.map fun o =>
        if o.id = orderId ∧ o.userId = userId ∧ o.status = OrderStatus.pending
        then { o with status := OrderStatus.cancelled } else o := by
  refine List.map_congr_left fun o _ => ?_
  by_cases h : o.id = orderId ∧ o.userId = userId ∧ o.status = OrderStatus.pending
  · rw [if_pos ((cancelMatches_iff _ _ _).mpr h), if_pos h]
  · rw [if_neg (fun hc => h ((cancelMatches_iff _ _ _).mp hc)), if_neg h]

theorem isTerminal_ne_pending {st : OrderStatus} (h : isTerminal st = true) :
    st ≠ OrderStatus.pending := by
  intro hp
  rw [hp] at h
  exact absurd h (by decide)

theorem jsAbs_fin (q : ℚ) : jsAbs (JSNum.fin q) = JSNum.fin |q| := by
  by_cases h : q < 0
  · simp [jsAbs, h, abs_of_neg h]
  · simp [jsAbs, h, abs_of_nonneg (not_lt.mp h)]

/-! ### Claim theorems -/

/-- Claim C8: when the RiskManager gate reports an invalid order,
`executeMarketOrder` returns no trade, transitions the order to REJECTED
with the RiskManager's reason, leaves the trades table unchanged, and makes
no further collaborator call: no quote is requested, no swap is submitted
and the portfolio is not touched. -/
theorem executeMarketOrder_risk_reject_frame (env : Env) (db : DB) (order : Order)
    (rc : RiskCheck) (henv : env.riskCheck = Res.ok rc) (hinvalid : rc.isValid = false) :
    (executeMarketOrder env db order).trade = none ∧
    (executeMarketOrder env db order).db.orders =
      (db.orders.map fun o =>
        if o.id = order.id then
          { o with status := OrderStatus.rejected, failureReason := rc.reason.map Reason.msg }
        else o) ∧
    (executeMarketOrder env db order).db.trades = db.trades ∧
    (executeMarketOrder env db order).calls = [ExtCall.risk] := by
  refine ⟨?_, ?_, ?_, ?_⟩ <;>
    simp [executeMarketOrder, executeMarketOrderTry, henv, hinvalid,
      updateOrderStatus_orders, updateOrderStatus_trades]

/-- Closed witness for C8 at a concrete blacklisted order. -/
theorem executeMarketOrder_risk_reject_frame_witness :
    (executeMarketOrder riskRejectEnv sampleDb sampleOrder).trade = none ∧
    (executeMarketOrder riskRejectEnv sampleDb sampleOrder).db.orders =
      (sampleDb.orders.map fun o =>
        if o.id = sampleOrder.id then
          { o with
            status := OrderStatus.rejected
            failureReason := ((Option.some "Output asset is blacklisted").map Reason.msg) }
        else o) ∧
    (executeMarketOrder riskRejectEnv sampleDb sampleOrder).db.trades = sampleDb.trades ∧
    (executeMarketOrder riskRejectEnv sampleDb sampleOrder).calls = [ExtCall.risk] :=
  executeMarketOrder_risk_reject_frame riskRejectEnv sampleDb sampleOrder
    { isValid := false, reason := some "Output asset is blacklisted" } rfl rfl

/-- Counterexample to claim C9 as stated: an order whose `limitPrice` is
absent and whose `marketPrice` is present but zero does NOT accept every
quote — the reference price resolves to `0`, the computed slippage is
`+Infinity`, and the quote is rejected even under tolerance `1`. -/
theorem checkSlippage_zero_market_price_rejects :
    zeroRefOrder.limitPrice = none ∧
    zeroRefOrder.marketPrice = some 0 ∧
    zeroRefOrder.slippageTolerance = 1 ∧
    (checkSlippage zeroRefOrder { inAmount := 1, outAmount := 2 }).isValid = false ∧
    (checkSlippage zeroRefOrder { inAmount := 1, outAmount := 2 }).reason =
      some (Reason.slippageExceeds JSNum.posInf 1) := by
  refine ⟨rfl, rfl, rfl, ?_, ?_⟩ <;>
    norm_num [checkSlippage, zeroRefOrder, sampleOrder, jsOr, jsDivQQ, jsSubOpt, jsAbs,
      jsDivOpt, jsGtQ]

/-- Claim C9 (amended): when the JavaScript reference price
`limitPrice || marketPrice` resolves to `undefined` — i.e. `limitPrice` is
absent or zero AND `marketPrice` is absent — the slippage computation is
`NaN`, the rejection comparison is false, and `checkSlippage` accepts every
quote, leaving the order with no price protection. -/
theorem checkSlippage_no_reference_accepts (order : Order) (quote : Quote)
    (h : jsOr order.limitPrice order.marketPrice = none) :
    (checkSlippage order quote).isValid = true ∧
    (checkSlippage order quote).reason = none := by
  constructor <;> simp [checkSlippage, h, jsSubOpt, jsAbs, jsDivOpt, jsGtQ]

/-- Closed witness for the amended C9 at a concrete order with no reference
price. -/
theorem checkSlippage_no_reference_accepts_witness :
    jsOr sampleOrder.limitPrice sampleOrder.marketPrice = none ∧
    ((checkSlippage sampleOrder { inAmount := 1, outAmount := 2 }).isValid = true ∧
      (checkSlippage sampleOrder { inAmount := 1, outAmount := 2 }).reason = none) :=
  ⟨by decide, checkSlippage_no_reference_accepts sampleOrder { inAmount := 1, outAmount := 2 } (by decide)⟩

/-- Claim C10: for an order with a defined positive reference price, a quote
whose implied slippage is exactly the order's `slippageTolerance` is
accepted — the rejection comparison `slippage > tolerance` is strict. -/
theorem checkSlippage_boundary_equal_accepts (order : Order) (quote : Quote) (P : ℚ)
    (href : jsOr order.limitPrice order.marketPrice = some P) (hP : 0 < P)
    (hin : quote.inAmount ≠ 0)
    (hs : |quote.outAmount / quote.inAmount - P| / P = order.slippageTolerance) :
    (checkSlippage order quote).isValid = true := by
  have hP0 : P ≠ 0 := ne_of_gt hP
  simp only [checkSlippage, href, jsDivQQ, if_neg hin, jsSubOpt, jsAbs_fin, jsDivOpt, if_neg hP0,
    jsGtQ, hs, decide_eq_true_eq]
  simp

/-- Closed witness for C10: reference price `1`, tolerance `1/10`, quoted
price `11/10`, implied slippage exactly `1/10`. -/
theorem checkSlippage_boundary_equal_accepts_witness :
    jsOr boundaryOrder.limitPrice boundaryOrder.marketPrice = some 1 ∧
    ((0 : ℚ) < 1) ∧
    ((11/10 : ℚ) ≠ 0) ∧
    |((11 : ℚ)/10) / 1 - 1| / 1 = boundaryOrder.slippageTolerance ∧
    (checkSlippage boundaryOrder { inAmount := 1, outAmount := 11/10 }).isValid = true := by
  refine ⟨by decide, by norm_num, by norm_num, by norm_num [boundaryOrder, sampleOrder], ?_⟩
  exact checkSlippage_boundary_equal_accepts boundaryOrder { inAmount := 1, outAmount := 11/10 } 1
    (by decide) (by norm_num) (by norm_num) (by norm_num [boundaryOrder, sampleOrder])

/-- Claim C7: `cancelOrder` transitions exactly the rows matching the given
id, the given owner and current status PENDING to CANCELLED — a single
conditional update keyed by the expected current status — leaves every
other row and the trades table unchanged, and returns `true` exactly when
such a row existed (i.e. when the transition occurred). -/
theorem cancelOrder_spec (db : DB) (orderId userId : String) :
    ((cancelOrder db orderId userId).2 = true ↔
      ∃ o ∈ db.orders, o.id = orderId ∧ o.userId = userId ∧ o.status = OrderStatus.pending) ∧
    (cancelOrder db orderId userId).1.orders =
      (db.orders.map fun o =>
        if o.id = orderId ∧ o.userId = userId ∧ o.status = OrderStatus.pending
        then { o with status := OrderStatus.cancelled } else o) ∧
    (cancelOrder db orderId userId).1.trades = db.trades := by
  refine ⟨?_, cancelOrder_orders_map db orderId userId, rfl⟩
  rw [show (cancelOrder db orderId userId).2 =
        decide (0 < (db.orders.filter (cancelMatches orderId userId)).length) from rfl]
  rw [decide_eq_true_eq, filter_length_pos_iff]
  constructor
  · rintro ⟨o, ho, hm⟩
    exact ⟨o, ho, (cancelMatches_iff _ _ _).mp hm⟩
  · rintro ⟨o, ho, hm⟩
    exact ⟨o, ho, (cancelMatches_iff _ _ _).mpr hm⟩

/-- Closed witness for C7: cancelling the pending `sampleOrder` by its owner
succeeds and stores CANCELLED. -/
theorem cancelOrder_spec_witness :
    ((cancelOrder sampleDb "o1" "u1").2 = true ↔
      ∃ o ∈ sampleDb.orders, o.id = "o1" ∧ o.userId = "u1" ∧ o.status = OrderStatus.pending) ∧
    (cancelOrder sampleDb "o1" "u1").1.orders =
      (sampleDb.orders.map fun o =>
        if o.id = "o1" ∧ o.userId = "u1" ∧ o.status = OrderStatus.pending
        then { o with status := OrderStatus.cancelled } else o) ∧
    (cancelOrder sampleDb "o1" "u1").1.trades = sampleDb.trades :=
  cancelOrder_spec sampleDb "o1" "u1"

/-- Counterexample to claim C3 as stated: after `cancelOrder` stores the
terminal status CANCELLED, a subsequent `executeMarketOrder` invocation on
the same (now stale) order overwrites it with REJECTED — a terminal status
is changed by a later operation, and the write is not conditioned on the
expected current status. -/
theorem terminal_status_overwritten :
    ((cancelOrder sampleDb "o1" "u1").1.orders.map Order.status = [OrderStatus.cancelled]) ∧
    isTerminal OrderStatus.cancelled = true ∧
    ((executeMarketOrder riskRejectEnv (cancelOrder sampleDb "o1" "u1").1 sampleOrder).db.orders.map
        Order.status = [OrderStatus.rejected]) := by
  refine ⟨?_, rfl, ?_⟩ <;>
    simp [cancelOrder, cancelMatches, sampleDb, sampleOrder, riskRejectEnv,
      executeMarketOrder, executeMarketOrderTry, updateOrderStatus]

/-- Claim C3 (amended): `cancelOrder`'s status write is the single
conditional update keyed by the expected current status PENDING (and
ownership): it maps every stored row unchanged unless id, owner and PENDING
all match, so it never changes a row whose status is terminal.  The
executors' writes, by contrast, go through `updateOrderStatus`, which is
keyed only by the order id and unconditional on status, so a stored
terminal status can be overwritten by a later executor invocation (see the
counterexample). -/
theorem cancelOrder_conditional_cas (db : DB) (orderId userId : String) :
    (cancelOrder db orderId userId).1.orders =
      (db.orders.map fun o =>
        if o.id = orderId ∧ o.userId = userId ∧ o.status = OrderStatus.pending
        then { o with status := OrderStatus.cancelled } else o) ∧
    ∀ o ∈ db.orders, isTerminal o.status = true →
      o ∈ (cancelOrder db orderId userId).1.orders := by
  refine ⟨cancelOrder_orders_map db orderId userId, fun o ho hterm => ?_⟩
  rw [cancelOrder_orders_map db orderId userId]
  have hne : ¬(o.id = orderId ∧ o.userId = userId ∧ o.status = OrderStatus.pending) :=
    fun h => isTerminal_ne_pending hterm h.2.2
  exact List.mem_map.mpr ⟨o, ho, by rw [if_neg hne]⟩

/-- Closed witness for the amended C3: a FILLED row survives `cancelOrder`
untouched. -/
theorem cancelOrder_conditional_cas_witness :
    ({ sampleOrder with status := OrderStatus.filled } ∈
      (cancelOrder { orders := [{ sampleOrder with status := OrderStatus.filled }], trades := [] }
        "o1" "u1").1.orders) :=
  (cancelOrder_conditional_cas
      { orders := [{ sampleOrder with status := OrderStatus.filled }], trades := [] }
      "o1" "u1").2
    { sampleOrder with status := OrderStatus.filled } (by simp) rfl

/-- Counterexample to claim C5 as stated: with the current price exactly
`0`, the BUY limit order's claimed trigger condition
`currentPrice ≤ limitPrice` holds (`0 ≤ 10`), yet `executeLimitOrder` does
not delegate to `executeMarketOrder`: the falsy guard `if (!currentPrice)`
treats the `0` price as unavailable, so the call no-ops after the price
fetch, while a delegated run would have gone on to the risk and quote
calls. -/
theorem executeLimitOrder_zero_price_no_delegation :
    limOrder.side = OrderSide.buy ∧
    limOrder.limitPrice = some 10 ∧
    ((0 : ℚ) ≤ 10) ∧
    zeroPriceEnv.currentPrice = Res.ok (some 0) ∧
    executeLimitOrder zeroPriceEnv sampleDb limOrder =
      { db := sampleDb, trade := none, calls := [ExtCall.price] } ∧
    (executeMarketOrder zeroPriceEnv sampleDb limOrder).calls =
      [ExtCall.risk, ExtCall.quote] ∧
    executeLimitOrder zeroPriceEnv sampleDb limOrder ≠
      { executeMarketOrder zeroPriceEnv sampleDb limOrder with
        calls := ExtCall.price :: (executeMarketOrder zeroPriceEnv sampleDb limOrder).calls } := by
  have h5 : executeLimitOrder zeroPriceEnv sampleDb limOrder =
      { db := sampleDb, trade := none, calls := [ExtCall.price] } := by
    simp [executeLimitOrder, zeroPriceEnv, allOkEnv]
  have h6 : (executeMarketOrder zeroPriceEnv sampleDb limOrder).calls =
      [ExtCall.risk, ExtCall.quote] := by
    norm_num [executeMarketOrder, executeMarketOrderTry, zeroPriceEnv, allOkEnv, checkSlippage,
      jsOr, jsDivQQ, jsSubOpt, jsAbs, jsDivOpt, jsGtQ, limOrder, sampleOrder]
  refine ⟨rfl, rfl, by norm_num, rfl, h5, h6, ?_⟩
  intro h
  rw [h5, h6] at h
  simp at h

/-- Claim C5 (amended): if the current price is unavailable OR exactly `0`
(falsy in JavaScript, caught by the code's `if (!currentPrice)` guard),
`executeLimitOrder` leaves the store untouched and returns no trade (the
order stays PENDING); for an available nonzero price it delegates to
`executeMarketOrder` exactly when the trigger holds — BUY at
`currentPrice ≤ limitPrice`, SELL at `currentPrice ≥ limitPrice`,
boundary-equal included — and otherwise is a no-op. -/
theorem executeLimitOrder_spec (env : Env) (db : DB) (order : Order) :
    ((env.currentPrice = Res.ok none ∨ env.currentPrice = Res.ok (some 0)) →
      (executeLimitOrder env db order).db = db ∧
      (executeLimitOrder env db order).trade = none) ∧
    (∀ p L, env.currentPrice = Res.ok (some p) → p ≠ 0 → order.limitPrice = some L →
      (((order.side = OrderSide.buy ∧ p ≤ L) ∨ (order.side = OrderSide.sell ∧ L ≤ p)) →
        executeLimitOrder env db order =
          { executeMarketOrder env db order with
            calls := ExtCall.price :: (executeMarketOrder env db order).calls }) ∧
      (¬((order.side = OrderSide.buy ∧ p ≤ L) ∨ (order.side = OrderSide.sell ∧ L ≤ p)) →
        (executeLimitOrder env db order).db = db ∧
        (executeLimitOrder env db order).trade = none)) := by
  refine ⟨fun h => ?_, fun p L hp hp0 hL => ⟨?_, ?_⟩⟩
  · rcases h with h | h <;> simp [executeLimitOrder, h]
  · intro htrig
    have hs : shouldExecuteLimitOrder order p = true := by
      rcases htrig with ⟨hside, hle⟩ | ⟨hside, hle⟩ <;>
        simp [shouldExecuteLimitOrder, hside, hL, qleOpt, qgeOpt, hle]
    simp [executeLimitOrder, hp, hp0, hs]
  · intro hntrig
    push_neg at hntrig
    have hs : shouldExecuteLimitOrder order p = false := by
      cases hside : order.side
      · have h1 : ¬p ≤ L := not_le.mpr (hntrig.1 hside)
        simp [shouldExecuteLimitOrder, hside, hL, qleOpt, h1]
      · have h2 : ¬L ≤ p := not_le.mpr (hntrig.2 hside)
        simp [shouldExecuteLimitOrder, hside, hL, qgeOpt, h2]
    simp [executeLimitOrder, hp, hp0, hs]

/-- Closed witness for the amended C5: a BUY limit at 10 with current price
1 (nonzero) triggers and delegates to `executeMarketOrder`. -/
theorem executeLimitOrder_spec_witness :
    executeLimitOrder allOkEnv sampleDb limOrder =
      { executeMarketOrder allOkEnv sampleDb limOrder with
        calls := ExtCall.price :: (executeMarketOrder allOkEnv sampleDb limOrder).calls } :=
  ((executeLimitOrder_spec allOkEnv sampleDb limOrder).2 1 10 rfl (by norm_num) rfl).1
    (Or.inl ⟨rfl, by norm_num⟩)

/-- Counterexample to claim C6 as stated: with the current price exactly
`0`, the SELL stop-loss order's claimed trigger condition (side SELL and
`currentPrice ≤ stopPrice`, here `0 ≤ 4`) holds, yet `executeStopLossOrder`
does not delegate: the falsy guard `if (!currentPrice)` treats the `0`
price as unavailable and no-ops after the price fetch, while a delegated
run would have executed all the way through the swap and portfolio
update. -/
theorem executeStopLossOrder_zero_price_no_delegation :
    slOrder.side = OrderSide.sell ∧
    slOrder.stopPrice = some 4 ∧
    ((0 : ℚ) ≤ 4) ∧
    zeroPriceEnv.currentPrice = Res.ok (some 0) ∧
    executeStopLossOrder zeroPriceEnv sampleDb slOrder =
      { db := sampleDb, trade := none, calls := [ExtCall.price] } ∧
    (executeMarketOrder zeroPriceEnv sampleDb slOrder).calls =
      [ExtCall.risk, ExtCall.quote, ExtCall.swap, ExtCall.portfolio] ∧
    executeStopLossOrder zeroPriceEnv sampleDb slOrder ≠
      { executeMarketOrder zeroPriceEnv sampleDb slOrder with
        calls := ExtCall.price :: (executeMarketOrder zeroPriceEnv sampleDb slOrder).calls } := by
  have h5 : executeStopLossOrder zeroPriceEnv sampleDb slOrder =
      { db := sampleDb, trade := none, calls := [ExtCall.price] } := by
    simp [executeStopLossOrder, zeroPriceEnv, allOkEnv]
  have h6 : (executeMarketOrder zeroPriceEnv sampleDb slOrder).calls =
      [ExtCall.risk, ExtCall.quote, ExtCall.swap, ExtCall.portfolio] := by
    norm_num [executeMarketOrder, executeMarketOrderTry, zeroPriceEnv, allOkEnv, checkSlippage,
      jsOr, jsDivQQ, jsSubOpt, jsAbs, jsDivOpt, jsGtQ, slOrder, sampleOrder]
  refine ⟨rfl, rfl, by norm_num, rfl, h5, h6, ?_⟩
  intro h
  rw [h5, h6] at h
  simp at h

/-- Claim C6 (amended): `executeStopLossOrder` delegates to
`executeMarketOrder` exactly when the order side is SELL, the current price
is nonzero (a `0` price is falsy and treated as unavailable by the code's
`if (!currentPrice)` guard, a no-op like an absent price) and
`currentPrice ≤ stopPrice`; a BUY-side stop-loss never triggers, whatever
the current price. -/
theorem executeStopLossOrder_spec (env : Env) (db : DB) (order : Order) :
    ((env.currentPrice = Res.ok none ∨ env.currentPrice = Res.ok (some 0)) →
      (executeStopLossOrder env db order).db = db ∧
      (executeStopLossOrder env db order).trade = none) ∧
    (∀ p s, env.currentPrice = Res.ok (some p) → p ≠ 0 → order.stopPrice = some s →
      ((order.side = OrderSide.sell ∧ p ≤ s) →
        executeStopLossOrder env db order =
          { executeMarketOrder env db order with
            calls := ExtCall.price :: (executeMarketOrder env db order).calls }) ∧
      (¬(order.side = OrderSide.sell ∧ p ≤ s) →
        (executeStopLossOrder env db order).db = db ∧
        (executeStopLossOrder env db order).trade = none)) ∧
    (order.side = OrderSide.buy →
      ∀ p, env.currentPrice = Res.ok (some p) →
        (executeStopLossOrder env db order).db = db ∧
        (executeStopLossOrder env db order).trade = none) := by
  refine ⟨fun h => ?_, ?_, ?_⟩
  · rcases h with h | h <;> simp [executeStopLossOrder, h]
  · intro p s hp hp0 hs
    constructor
    · rintro ⟨hside, hle⟩
      have ht : shouldExecuteStopLoss order p = true := by
        simp [shouldExecuteStopLoss, hside, hs, qleOpt, hle]
      simp [executeStopLossOrder, hp, hp0, ht]
    · intro hn
      have ht : shouldExecuteStopLoss order p = false := by
        cases hside : order.side
        · simp [shouldExecuteStopLoss, hside]
        · have h1 : ¬p ≤ s := fun hle => hn ⟨hside, hle⟩
          simp [shouldExecuteStopLoss, hside, hs, qleOpt, h1]
      simp [executeStopLossOrder, hp, hp0, ht]
  · intro hside p hp
    have ht : shouldExecuteStopLoss order p = false := by
      simp [shouldExecuteStopLoss, hside]
    by_cases hp0 : p = 0 <;> simp [executeStopLossOrder, hp, hp0, ht]

/-- Closed witness for the amended C6: a SELL stop-loss at 4 with current
price 1 (nonzero) triggers, and a BUY order with the same data never
does. -/
theorem executeStopLossOrder_spec_witness :
    (executeStopLossOrder allOkEnv sampleDb slOrder =
      { executeMarketOrder allOkEnv sampleDb slOrder with
        calls := ExtCall.price :: (executeMarketOrder allOkEnv sampleDb slOrder).calls }) ∧
    ((executeStopLossOrder allOkEnv sampleDb { slOrder with side := OrderSide.buy }).db =
        sampleDb ∧
      (executeStopLossOrder allOkEnv sampleDb { slOrder with side := OrderSide.buy }).trade =
        none) :=
  ⟨((executeStopLossOrder_spec allOkEnv sampleDb slOrder).2.1 1 4 rfl (by norm_num) rfl).1
      ⟨rfl, by norm_num⟩,
    (executeStopLossOrder_spec allOkEnv sampleDb { slOrder with side := OrderSide.buy }).2.2
      rfl 1 rfl⟩

theorem checkSlippage_of_ref (order : Order) (quote : Quote) (P : ℚ)
    (href : jsOr order.limitPrice order.marketPrice = some P)
    (hP : P ≠ 0) (hin : quote.inAmount ≠ 0) :
    checkSlippage order quote =
      if order.slippageTolerance < |quote.outAmount / quote.inAmount - P| / P then
        { isValid := false
          reason := some (Reason.slippageExceeds
            (JSNum.fin (|quote.outAmount / quote.inAmount - P| / P)) order.slippageTolerance) }
      else { isValid := true, reason := none } := by
  simp only [checkSlippage, href, jsDivQQ, if_neg hin, jsSubOpt, jsAbs_fin, jsDivOpt, if_neg hP,
    jsGtQ, decide_eq_true_eq]

/-- Claim C4: with reference price `P` (`limitPrice` if present, else the
recorded `marketPrice`) and tolerance `T`, a quote implying price
`P×(1+T+ε)` (`0 < ε`) computes slippage `T+ε`, is rejected, and
`executeMarketOrder` transitions the order to REJECTED with a reason
stating both the slippage and the tolerance while inserting no trade; a
quote implying price `P×(1+T−ε)` (`ε ≤ T`, the just-off-boundary case)
computes slippage `T−ε` and is accepted. -/
theorem slippage_gate_boundary (env : Env) (db : DB) (order : Order)
    (rc : RiskCheck) (P eps : ℚ) (q1 q2 : Quote)
    (href : jsOr order.limitPrice order.marketPrice = some P)
    (hP : 0 < P) (heps : 0 < eps) (hepsT : eps ≤ order.slippageTolerance)
    (h1in : q1.inAmount ≠ 0)
    (h1out : q1.outAmount = P * (1 + order.slippageTolerance + eps) * q1.inAmount)
    (h2in : q2.inAmount ≠ 0)
    (h2out : q2.outAmount = P * (1 + order.slippageTolerance - eps) * q2.inAmount)
    (henv : env.riskCheck = Res.ok rc) (hrc : rc.isValid = true)
    (hq : env.quote = Res.ok (some q1)) :
    checkSlippage order q1 =
      { isValid := false
        reason := some (Reason.slippageExceeds
          (JSNum.fin (order.slippageTolerance + eps)) order.slippageTolerance) } ∧
    (executeMarketOrder env db order).trade = none ∧
    (executeMarketOrder env db order).db.orders =
      (db.orders.map fun o =>
        if o.id = order.id then
          { o with
            status := OrderStatus.rejected
            failureReason := some (Reason.slippageExceeds
              (JSNum.fin (order.slippageTolerance + eps)) order.slippageTolerance) }
        else o) ∧
    (executeMarketOrder env db order).db.trades = db.trades ∧
    (checkSlippage order q2).isValid = true := by
  have hPne : P ≠ 0 := ne_of_gt hP
  have hTpos : 0 < order.slippageTolerance := lt_of_lt_of_le heps hepsT
  have hs1 : |q1.outAmount / q1.inAmount - P| / P = order.slippageTolerance + eps := by
    rw [h1out, mul_div_assoc, div_self h1in, mul_one]
    have h : P * (1 + order.slippageTolerance + eps) - P =
        P * (order.slippageTolerance + eps) := by ring
    rw [h, abs_of_pos (mul_pos hP (by linarith)), mul_div_cancel_left₀ _ hPne]
  have hs2 : |q2.outAmount / q2.inAmount - P| / P = order.slippageTolerance - eps := by
    rw [h2out, mul_div_assoc, div_self h2in, mul_one]
    have h : P * (1 + order.slippageTolerance - eps) - P =
        P * (order.slippageTolerance - eps) := by ring
    rw [h, abs_of_nonneg (mul_nonneg (le_of_lt hP) (by linarith)), mul_div_cancel_left₀ _ hPne]
  have hcs1 : checkSlippage order q1 =
      { isValid := false
        reason := some (Reason.slippageExceeds
          (JSNum.fin (order.slippageTolerance + eps)) order.slippageTolerance) } := by
    rw [checkSlippage_of_ref order q1 P href hPne h1in, hs1,
      if_pos (by linarith : order.slippageTolerance < order.slippageTolerance + eps)]
  have hcs2 : (checkSlippage order q2).isValid = true := by
    rw [checkSlippage_of_ref order q2 P href hPne h2in, hs2,
      if_neg (by linarith : ¬order.slippageTolerance < order.slippageTolerance - eps)]
  refine ⟨hcs1, ?_, ?_, ?_, hcs2⟩ <;>
    simp [executeMarketOrder, executeMarketOrderTry, henv, hrc, hq, hcs1,
      updateOrderStatus_orders, updateOrderStatus_trades]

/-- Closed witness for C4: reference price `1`, tolerance `1/10`, `ε = 1/10`;
quoted price `6/5` is rejected with both percentages in the reason, quoted
price `1` is accepted. -/
theorem slippage_gate_boundary_witness :
    (checkSlippage boundaryOrder { inAmount := 1, outAmount := 6/5 } =
      { isValid := false
        reason := some (Reason.slippageExceeds
          (JSNum.fin (boundaryOrder.slippageTolerance + 1/10)) boundaryOrder.slippageTolerance) }) ∧
    (executeMarketOrder slipEnv sampleDb boundaryOrder).trade = none ∧
    (executeMarketOrder slipEnv sampleDb boundaryOrder).db.orders =
      (sampleDb.orders.map fun o =>
        if o.id = boundaryOrder.id then
          { o with
            status := OrderStatus.rejected
            failureReason := some (Reason.slippageExceeds
              (JSNum.fin (boundaryOrder.slippageTolerance + 1/10)) boundaryOrder.slippageTolerance) }
        else o) ∧
    (executeMarketOrder slipEnv sampleDb boundaryOrder).db.trades = sampleDb.trades ∧
    (checkSlippage boundaryOrder { inAmount := 1, outAmount := 1 }).isValid = true :=
  slippage_gate_boundary slipEnv sampleDb boundaryOrder
    { isValid := true, reason := none } 1 (1/10)
    { inAmount := 1, outAmount := 6/5 } { inAmount := 1, outAmount := 1 }
    rfl (by norm_num) (by norm_num) (by norm_num [boundaryOrder, sampleOrder])
    (by norm_num) (by norm_num [boundaryOrder, sampleOrder])
    (by norm_num) (by norm_num [boundaryOrder, sampleOrder])
    rfl rfl rfl

/-- Counterexample to claim C1 as stated: with every step succeeding up to
the portfolio update, which throws, `executeMarketOrder` returns no trade —
yet the Trade record inserted in step 5 remains in the trades table, so a
null result does not imply that no Trade was inserted for the invocation
(the order itself is FAILED with the exception message, as the claim says). -/
theorem executeMarketOrder_null_with_trade_inserted :
    (executeMarketOrder portfolioThrowEnv sampleDb sampleOrder).trade = none ∧
    (executeMarketOrder portfolioThrowEnv sampleDb sampleOrder).db.trades.length = 1 ∧
    sampleDb.trades.length = 0 ∧
    (executeMarketOrder portfolioThrowEnv sampleDb sampleOrder).db.orders.map Order.status =
      [OrderStatus.failed] ∧
    (executeMarketOrder portfolioThrowEnv sampleDb sampleOrder).db.orders.map
        Order.failureReason = [some (Reason.msg "portfolio store unreachable")] := by
  refine ⟨?_, ?_, rfl, ?_, ?_⟩ <;>
    norm_num [executeMarketOrder, executeMarketOrderTry, portfolioThrowEnv, sampleDb,
      sampleOrder, checkSlippage, jsOr, jsDivQQ, jsSubOpt, jsAbs, jsDivOpt, jsGtQ,
      createTradeRecord, jsOrZero, insertTrade, updateOrderStatus]

/-- Claim C1 (amended): whenever `executeMarketOrder` returns no trade, the
order has been written a terminal REJECTED or FAILED status with the
corresponding failure reason (any collaborator exception is caught and
recorded as FAILED with its message rather than propagating); and the
trades table is unchanged in every such case except when the failure arose
in the portfolio-update step, which runs after the trade record has already
been inserted. -/
theorem executeMarketOrder_null_spec (env : Env) (db : DB) (order : Order)
    (h : (executeMarketOrder env db order).trade = none) :
    (∃ st reason, (st = OrderStatus.rejected ∨ st = OrderStatus.failed) ∧
      (executeMarketOrder env db order).db.orders =
        (db.orders.map fun o =>
          if o.id = order.id then { o with status := st, failureReason := reason } else o)) ∧
    ((executeMarketOrder env db order).db.trades = db.trades ∨
      ∃ m, env.portfolioUpdate = Res.exn m) := by
  cases henv : env.riskCheck with
  | exn m =>
    refine ⟨⟨.failed, some (.msg m), Or.inr rfl, ?_⟩, Or.inl ?_⟩ <;>
      simp [executeMarketOrder, executeMarketOrderTry, henv,
        updateOrderStatus_orders, updateOrderStatus_trades]
  | ok rc =>
    cases hrc : rc.isValid with
    | false =>
      refine ⟨⟨.rejected, rc.reason.map .msg, Or.inl rfl, ?_⟩, Or.inl ?_⟩ <;>
        simp [executeMarketOrder, executeMarketOrderTry, henv, hrc,
          updateOrderStatus_orders, updateOrderStatus_trades]
    | true =>
      cases hq : env.quote with
      | exn m =>
        refine ⟨⟨.failed, some (.msg m), Or.inr rfl, ?_⟩, Or.inl ?_⟩ <;>
          simp [executeMarketOrder, executeMarketOrderTry, henv, hrc, hq,
            updateOrderStatus_orders, updateOrderStatus_trades]
      | ok oq =>
        cases oq with
        | none =>
          refine ⟨⟨.failed, some (.msg "Unable to get quote"), Or.inr rfl, ?_⟩, Or.inl ?_⟩ <;>
            simp [executeMarketOrder, executeMarketOrderTry, henv, hrc, hq,
              updateOrderStatus_orders, updateOrderStatus_trades]
        | some q =>
          cases hsc : (checkSlippage order q).isValid with
          | false =>
            refine ⟨⟨.rejected, (checkSlippage order q).reason, Or.inl rfl, ?_⟩, Or.inl ?_⟩ <;>
              simp [executeMarketOrder, executeMarketOrderTry, henv, hrc, hq, hsc,
                updateOrderStatus_orders, updateOrderStatus_trades]
          | true =>
            cases hsw : env.swap with
            | exn m =>
              refine ⟨⟨.failed, some (.msg m), Or.inr rfl, ?_⟩, Or.inl ?_⟩ <;>
                simp [executeMarketOrder, executeMarketOrderTry, henv, hrc, hq, hsc, hsw,
                  updateOrderStatus_orders, updateOrderStatus_trades]
            | ok sr =>
              cases hsr : sr.success with
              | false =>
                refine ⟨⟨.failed, sr.error.map .msg, Or.inr rfl, ?_⟩, Or.inl ?_⟩ <;>
                  simp [executeMarketOrder, executeMarketOrderTry, henv, hrc, hq, hsc, hsw,
                    hsr, updateOrderStatus_orders, updateOrderStatus_trades]
              | true =>
                cases hpu : env.portfolioUpdate with
                | exn m =>
                  refine ⟨⟨.failed, some (.msg m), Or.inr rfl, ?_⟩, Or.inr ⟨m, rfl⟩⟩
                  simp [executeMarketOrder, executeMarketOrderTry, henv, hrc, hq, hsc, hsw,
                    hsr, hpu, updateOrderStatus_orders, insertTrade_orders]
                | ok u =>
                  exfalso
                  simp [executeMarketOrder, executeMarketOrderTry, henv, hrc, hq, hsc, hsw,
                    hsr, hpu] at h

/-- Closed witness for the amended C1 at a risk-rejected order. -/
theorem executeMarketOrder_null_spec_witness :
    (∃ st reason, (st = OrderStatus.rejected ∨ st = OrderStatus.failed) ∧
      (executeMarketOrder riskRejectEnv sampleDb sampleOrder).db.orders =
        (sampleDb.orders.map fun o =>
          if o.id = sampleOrder.id then { o with status := st, failureReason := reason }
          else o)) ∧
    ((executeMarketOrder riskRejectEnv sampleDb sampleOrder).db.trades = sampleDb.trades ∨
      ∃ m, riskRejectEnv.portfolioUpdate = Res.exn m) :=
  executeMarketOrder_null_spec riskRejectEnv sampleDb sampleOrder rfl

/-- Claim C2 is violated by the code: in a batch of two pending orders —
the older a TAKE_PROFIT whose price fetch throws, then a LIMIT — the
exception escapes `executeTakeProfitOrder` (which, unlike the limit and
stop-loss executors, has no try/catch), reaches the single outer catch of
`processPendingOrders`, and aborts the pass: the LIMIT order is in the
fetched list but is never dispatched to its executor. -/
theorem processPendingOrders_take_profit_abort :
    getPendingOrders batchDb = [tpOrder, limOrder] ∧
    processPendingOrders (fun _ => priceThrowEnv) batchDb = (batchDb, [tpOrder.id]) ∧
    limOrder.id ∉ (processPendingOrders (fun _ => priceThrowEnv) batchDb).2 := by
  refine ⟨rfl, rfl, ?_⟩
  rw [show (processPendingOrders (fun _ => priceThrowEnv) batchDb).2 = [tpOrder.id] from rfl]
  simp [tpOrder, limOrder, sampleOrder]

end PlebLaunch
